import Mathlib

/-!
Verification of the RxMER value-decoding and container logic of OpenPNM
(`package/rx_mer_class.py`), shallowly embedded in Lean 4.

Python numbers are modelled exactly: a Python `int` as `ℤ`, a finite
Python `float` as `ℚ` (every finite value reachable in this code is a
dyadic number, represented exactly by a binary double, so the rational
model is faithful on finite floats), and a value that is stored as either
kind is a tagged `PyNum`.  The one Python float the rational model cannot
express is NaN; a separate NaN-aware model of the float branch of
`_validate_value` (`PyFloat`, `validate_value_float` below) covers that
case, agrees with the rational model on every finite float, and exhibits
that a NaN input is stored unclamped.  Exceptions (`ValueError` from
`_validate_value`, the `AttributeError` raised by calling a method on
`None`) are modelled with `Except String`.
-/

/-- A Python number as stored in `RxMerDataValue.value`: the code stores the
`int` sentinel `0xFF` unchanged but stores a `float` on every other path,
and the distinction is observable in the JSON rendering (`255` vs `63.5`). -/
inductive PyNum where
  | pint (n : ℤ)
  | pfloat (q : ℚ)
deriving DecidableEq

/-- Numeric value of a stored Python number (Python `==`/`!=` compare
`int` and `float` by numeric value). -/
def PyNum.toRat : PyNum → ℚ
  | .pint n => (n : ℚ)
  | .pfloat q => q

/-- A Python value passed to the `RxMerDataValue` constructor: an `int`,
a finite `float`, or a non-numeric value (a `str` or `None`), which the
code rejects.  The non-finite float NaN is outside this type; the
NaN-aware `PyFloat` model below handles it. -/
inductive PyValue where
  | vint (n : ℤ)
  | vfloat (q : ℚ)
  | vstr (s : String)
  | vnone
deriving DecidableEq

/-- One RxMER value for a subcarrier (`class RxMerDataValue`); the single
attribute `value` is set once by `__init__` from `_validate_value`. -/
structure RxMerDataValue where
  value : PyNum
deriving DecidableEq

/-- Constant `RxMerDataValue.NO_MEASUREMENT: int = 0xFF`. -/
def RxMerDataValue.NO_MEASUREMENT : ℤ := 0xFF

/-- Constant `RxMerDataValue.MAX_REPORTED_VALUE: float = 63.5`. -/
def RxMerDataValue.MAX_REPORTED_VALUE : ℚ := 63.5

/-- Method `RxMerDataValue._validate_value`:
`int` equal to the sentinel is returned unchanged; any other `int` is
clamped by `min(max(value, 0), int(MAX_REPORTED_VALUE * 4))` and divided
by `4.0`; a `float` is clamped by `min(max(value, 0.0), MAX_REPORTED_VALUE)`;
anything else raises `ValueError("Invalid RxMER value")`.  Python `int()`
on a nonnegative float is its floor. -/
def RxMerDataValue._validate_value : PyValue → Except String PyNum
  | .vint n =>
      if n = RxMerDataValue.NO_MEASUREMENT then
        .ok (.pint RxMerDataValue.NO_MEASUREMENT)
      else
        .ok (.pfloat (((min (max n 0) (RxMerDataValue.MAX_REPORTED_VALUE * 4).floor : ℤ) : ℚ) / 4))
  | .vfloat q =>
      .ok (.pfloat (min (max q 0) RxMerDataValue.MAX_REPORTED_VALUE))
  | _ => .error "Invalid RxMER value"

/-- Method `RxMerDataValue.__init__`: stores the result of `_validate_value`,
propagating its exception. -/
def RxMerDataValue.init (v : PyValue) : Except String RxMerDataValue :=
  (RxMerDataValue._validate_value v).map RxMerDataValue.mk

/-- Method `isMaxValue`: `self.value == RxMerDataValue.MAX_REPORTED_VALUE`
(Python `==` compares `int` and `float` by numeric value). -/
def RxMerDataValue.isMaxValue (r : RxMerDataValue) : Bool :=
  decide (r.value.toRat = RxMerDataValue.MAX_REPORTED_VALUE)

/-- Method `getRxMER`: returns `self.value` (its numeric reading). -/
def RxMerDataValue.getRxMER (r : RxMerDataValue) : ℚ :=
  r.value.toRat

/-- Method `isMeasurement`: `self.value != RxMerDataValue.NO_MEASUREMENT`
(numeric comparison, independent of the `int`/`float` representation). -/
def RxMerDataValue.isMeasurement (r : RxMerDataValue) : Bool :=
  decide (r.value.toRat ≠ ((RxMerDataValue.NO_MEASUREMENT : ℤ) : ℚ))

/-!
JSON rendering.  The code serializes with Python `json.dumps` and its
default options (`ensure_ascii=True`, item separator `", "`, key separator
`": "`).  The model below reproduces exactly the fragment of that encoder
the code exercises: objects with plain-ASCII keys, arrays, strings,
booleans, `int`s and `float`s.
-/

/-- Hexadecimal digit character, lower case, as used by `json.dumps` in
`\uXXXX` escapes. -/
def hexDigit (n : Nat) : Char :=
  if n < 10 then Char.ofNat (48 + n) else Char.ofNat (87 + n)

/-- A six-character `\uXXXX` escape for a code point below `0x10000`. -/
def uEscape (n : Nat) : String :=
  String.mk ['\\', 'u', hexDigit (n / 4096 % 16), hexDigit (n / 256 % 16),
             hexDigit (n / 16 % 16), hexDigit (n % 16)]

/-- Per-character escaping of `json.dumps` (`ensure_ascii=True`): the two
characters `"` and `\` get a backslash, the common control characters get
their short escapes, every other character outside printable ASCII becomes
`\uXXXX` (code points above `0xFFFF`, which need surrogate pairs, never
occur in the output of this program), and printable ASCII passes through. -/
def jsonEscapeChar (c : Char) : String :=
  if c = '"' then "\\\""
  else if c = '\\' then "\\\\"
  else if c = '\n' then "\\n"
  else if c = '\t' then "\\t"
  else if c = '\r' then "\\r"
  else if c.toNat = 8 then "\\b"
  else if c.toNat = 12 then "\\f"
  else if c.toNat < 32 ∨ 126 < c.toNat then uEscape c.toNat
  else String.singleton c

/-- Rendering by `json.dumps` of a string: a quoted, escaped form. -/
def jsonQuote (s : String) : String :=
  "\"" ++ String.join (s.data.map jsonEscapeChar) ++ "\""

/-- Strip trailing decimal zeros from a digit block `(v, len)`, keeping at
least one digit, as the shortest-repr printing of a `float` does. -/
def stripTZ : Nat → Nat → Nat × Nat
  | v, l + 2 => if v % 10 = 0 then stripTZ (v / 10) (l + 1) else (v, l + 2)
  | v, l => (v, l)

/-- Decimal digits of `v` left-padded with zeros to length `len`. -/
def natDigits (len : Nat) (v : Nat) : String :=
  String.mk (List.replicate (len - (toString v).length) '0') ++ toString v

/-- Python `repr` of a `float`, for the finite decimal values this program
produces (every reachable float is `k/4` or a clamped bound, whose shortest
decimal expansion of at most 17 fractional digits is exact): sign, integer
part, `.`, then the fractional digits with trailing zeros stripped but at
least one digit kept (`0.0`, `0.25`, `63.5`). -/
def floatRepr (q : ℚ) : String :=
  let sign := if q < 0 then "-" else ""
  let a := |q|
  let ip := a.num.toNat / a.den
  let fr := a.num.toNat % a.den * 10 ^ 17 / a.den
  let vl := stripTZ fr 17
  sign ++ toString ip ++ "." ++ natDigits vl.2 vl.1

/-- Rendering by `json.dumps` of a Python number: `repr` of the `int` or of
the `float`. -/
def dumpNum : PyNum → String
  | .pint n => toString n
  | .pfloat q => floatRepr q

/-- A JSON document as `json.dumps` receives it from this code. -/
inductive Json where
  | num (n : PyNum)
  | bool (b : Bool)
  | str (s : String)
  | arr (xs : List Json)
  | obj (fields : List (String × Json))

mutual

/-- Rendering by `json.dumps` with default separators: objects as
`\x7b"k": v, ...\x7d`, arrays as `[v, ...]`. -/
def Json.dumps : Json → String
  | .num n => dumpNum n
  | .bool b => if b then "true" else "false"
  | .str s => jsonQuote s
  | .arr xs => "[" ++ String.intercalate ", " (Json.dumpsList xs) ++ "]"
  | .obj fs => "\x7b" ++ String.intercalate ", " (Json.dumpsFields fs) ++ "\x7d"

/-- Renderings of the elements of a JSON array, in order. -/
def Json.dumpsList : List Json → List String
  | [] => []
  | x :: xs => Json.dumps x :: Json.dumpsList xs

/-- Renderings of the key/value pairs of a JSON object, in order. -/
def Json.dumpsFields : List (String × Json) → List String
  | [] => []
  | f :: fs => (jsonQuote f.1 ++ ": " ++ Json.dumps f.2) :: Json.dumpsFields fs

end

/-- Method `RxMerDataValue.toJson`: `json.dumps` of the dict with the three keys
`value`, `isMaxValue`, `isMeasurement`. -/
def RxMerDataValue.toJson (r : RxMerDataValue) : String :=
  Json.dumps (.obj [("value", .num r.value),
                    ("isMaxValue", .bool r.isMaxValue),
                    ("isMeasurement", .bool r.isMeasurement)])

/-- A sequence of RxMER values for a downstream OFDM channel
(`class RxMerData`); the single attribute `values` is the list given to
`__init__` (the debug log call has no observable effect on the data). -/
structure RxMerData where
  values : List RxMerDataValue
deriving DecidableEq

/-- Method `RxMerData.size`: `len(self.values)`. -/
def RxMerData.size (d : RxMerData) : Nat :=
  d.values.length

/-- Method `RxMerData.toJson`: `json.dumps` of the dict whose single key
`values` maps to the list of per-element `toJson()` results — each
element contributes its already-serialized JSON *string*, which `dumps`
then encodes as a JSON string, not as a nested object. -/
def RxMerData.toJson (d : RxMerData) : String :=
  Json.dumps (.obj [("values", .arr (d.values.map (fun v => .str v.toJson)))])

/-- The processor state (`class RX_MER`).  The header collaborator is out
of scope and is modelled by the value its one consumed method
`getPnmData()` returns: `none`, or a `BytesIO` payload whose
`getvalue()` converts (via `list`) to the list of its byte values. -/
structure RX_MER where
  pnm_header : Option (List Nat)
  rxmer_data : Option RxMerData
deriving DecidableEq

/-- Method `RX_MER.__init__`: stores the header reference and sets
`self.rxmer_data = None`. -/
def RX_MER.init (pnm_header : Option (List Nat)) : RX_MER :=
  { pnm_header := pnm_header, rxmer_data := none }

/-- The list comprehension `[RxMerDataValue(value) for value in
pnm_data_list]`: constructs left to right and propagates the first
exception. -/
def decodeBytes : List Nat → Except String (List RxMerDataValue)
  | [] => .ok []
  | b :: rest => do
    let r ← RxMerDataValue.init (.vint (b : ℤ))
    let rs ← decodeBytes rest
    .ok (r :: rs)

/-- Method `RX_MER._parse_rxmer_data`: if `getPnmData()` is not `None`, decode
each byte of the payload into an `RxMerDataValue` and wrap the list in an
`RxMerData`; otherwise return an empty `RxMerData`. -/
def RX_MER._parse_rxmer_data (m : RX_MER) : Except String RxMerData :=
  match m.pnm_header with
  | some pnm_data => (decodeBytes pnm_data).map RxMerData.mk
  | none => .ok (RxMerData.mk [])

/-- Method `RX_MER.process_data`: sets `self.rxmer_data` to the parse result
(the debug log call has no observable effect). -/
def RX_MER.process_data (m : RX_MER) : Except String RX_MER :=
  (m._parse_rxmer_data).map (fun d => { m with rxmer_data := some d })

/-- Method `RX_MER.run`: calls `process_data`. -/
def RX_MER.run (m : RX_MER) : Except String RX_MER :=
  m.process_data

/-- Method `RX_MER.toJson`: `self.rxmer_data.toJson()`; when `rxmer_data` is
still `None` this raises
an `AttributeError` naming the `NoneType` attribute access. -/
def RX_MER.toJson (m : RX_MER) : Except String String :=
  match m.rxmer_data with
  | none => .error "AttributeError: NoneType object has no attribute toJson"
  | some d => .ok d.toJson

/-- Test returning `true` when `needle` occurs as a contiguous substring of the character
list: used to state whether an error message echoes the offending input. -/
def containsSub (needle : List Char) : List Char → Bool
  | [] => needle.isEmpty
  | c :: rest => needle.isPrefixOf (c :: rest) || containsSub needle rest

/-- Substring test on strings. -/
def strContains (hay needle : String) : Bool :=
  containsSub needle.data hay.data

/-!
NaN-aware model of the float branch of `_validate_value`.  A Python float
is either finite (exactly a rational) or NaN (infinities clamp like very
large or very small finite values and need no separate case for the
invariant question).  Python comparisons involving NaN are all false, and
the builtin two-argument `max(a, b)` returns `b` only when `b > a`
(likewise `min(a, b)` returns `b` only when `b < a`), so
`min(max(nan, 0.0), 63.5)` evaluates to `nan`: the code stores a NaN
input unclamped.
-/

/-- A Python float including the non-finite NaN. -/
inductive PyFloat where
  | nan
  | fin (q : ℚ)
deriving DecidableEq

/-- Comparison `<` on Python floats: every comparison involving NaN is
false. -/
def PyFloat.lt : PyFloat → PyFloat → Bool
  | .fin a, .fin b => decide (a < b)
  | _, _ => false

/-- Python builtin two-argument `max`: keeps the first argument unless
the second compares greater, so a NaN first argument propagates. -/
def pymaxF (a b : PyFloat) : PyFloat :=
  if PyFloat.lt a b then b else a

/-- Python builtin two-argument `min`: keeps the first argument unless
the second compares smaller, so a NaN first argument propagates. -/
def pyminF (a b : PyFloat) : PyFloat :=
  if PyFloat.lt b a then b else a

/-- The `float` branch of `_validate_value`, over the NaN-aware float
model: `min(max(value, 0.0), RxMerDataValue.MAX_REPORTED_VALUE)`. -/
def validate_value_float (x : PyFloat) : PyFloat :=
  pyminF (pymaxF x (.fin 0)) (.fin RxMerDataValue.MAX_REPORTED_VALUE)

/-- Test for the stored-value range the invariant claims: a finite
decibel reading in [0.0, 63.5] or exactly the sentinel 255.  NaN
satisfies neither. -/
def PyFloat.inClaimedRange : PyFloat → Bool
  | .nan => false
  | .fin q => decide ((0 ≤ q ∧ q ≤ 63.5) ∨ q = 255)

/-! Theorems. -/

/-- Evaluation fact `int(63.5 * 4) = 254`. -/
theorem max_times_four :
    (RxMerDataValue.MAX_REPORTED_VALUE * 4).floor = 254 := by
  norm_num [RxMerDataValue.MAX_REPORTED_VALUE, Rat.floor_def']

/-- Closed form of `_validate_value` on an `int` input. -/
theorem validate_vint (n : ℤ) :
    RxMerDataValue._validate_value (.vint n) =
      .ok (if n = 255 then .pint 255
           else .pfloat (((min (max n 0) 254 : ℤ) : ℚ) / 4)) := by
  by_cases hn : n = 255
  · subst hn
    simp [RxMerDataValue._validate_value, RxMerDataValue.NO_MEASUREMENT]
  · simp [RxMerDataValue._validate_value, RxMerDataValue.NO_MEASUREMENT, hn,
      max_times_four]

/-- Closed form of the constructor on an `int` input: it never fails. -/
theorem init_vint (n : ℤ) :
    RxMerDataValue.init (.vint n) =
      .ok ⟨if n = 255 then .pint 255
           else .pfloat (((min (max n 0) 254 : ℤ) : ℚ) / 4)⟩ := by
  rw [RxMerDataValue.init, validate_vint]
  by_cases hn : n = 255 <;> simp [hn, Except.map]

/-- Closed form of the constructor on a `float` input: it never fails. -/
theorem init_vfloat (q : ℚ) :
    RxMerDataValue.init (.vfloat q) =
      .ok ⟨.pfloat (min (max q 0) 63.5)⟩ := rfl

/-- C1: for every integer v in [0, 254], constructing from v on the
raw-byte path stores v / 4.0, so `getRxMER` returns v / 4.0, which lies in
[0.0, 63.5]. -/
theorem C1_raw_byte_decoding (v : ℤ) (h0 : 0 ≤ v) (h1 : v ≤ 254) :
    ∃ r : RxMerDataValue, RxMerDataValue.init (.vint v) = .ok r ∧
      r.getRxMER = (v : ℚ) / 4 ∧ 0 ≤ r.getRxMER ∧ r.getRxMER ≤ 63.5 := by
  have hne : v ≠ RxMerDataValue.NO_MEASUREMENT := by
    simp only [RxMerDataValue.NO_MEASUREMENT]; omega
  have hclamp : min (max v 0) 254 = v := by omega
  refine ⟨⟨.pfloat ((v : ℚ) / 4)⟩, ?_, rfl, ?_, ?_⟩
  · simp [RxMerDataValue.init, RxMerDataValue._validate_value, hne,
      max_times_four, hclamp, Except.map]
  · have hv : (0 : ℚ) ≤ (v : ℚ) := by exact_mod_cast h0
    simp only [RxMerDataValue.getRxMER, PyNum.toRat]
    positivity
  · have hv : (v : ℚ) ≤ 254 := by exact_mod_cast h1
    simp only [RxMerDataValue.getRxMER, PyNum.toRat]
    linarith

/-- Witness for C1 at v = 3: the decoded value is 0.75. -/
theorem C1_raw_byte_decoding_witness :
    ∃ r : RxMerDataValue, RxMerDataValue.init (.vint 3) = .ok r ∧
      r.getRxMER = ((3 : ℤ) : ℚ) / 4 ∧ 0 ≤ r.getRxMER ∧ r.getRxMER ≤ 63.5 :=
  C1_raw_byte_decoding 3 (by decide) (by decide)

/-- C2: constructing from the integer 255 stores the sentinel unchanged,
`getRxMER` returns 255, and both `isMeasurement` and `isMaxValue` are
false. -/
theorem C2_sentinel_construction :
    RxMerDataValue.init (.vint 255) = .ok ⟨.pint 255⟩ ∧
    (RxMerDataValue.mk (.pint 255)).getRxMER = 255 ∧
    (RxMerDataValue.mk (.pint 255)).isMeasurement = false ∧
    (RxMerDataValue.mk (.pint 255)).isMaxValue = false := by
  refine ⟨rfl, rfl, ?_, ?_⟩ <;>
    · simp only [RxMerDataValue.isMeasurement, RxMerDataValue.isMaxValue,
        PyNum.toRat, RxMerDataValue.NO_MEASUREMENT,
        RxMerDataValue.MAX_REPORTED_VALUE, decide_eq_false_iff_not]
      norm_num

/-- C3: out-of-range numeric input is clamped, never rejected: an integer
above 254 other than 255 decodes exactly like 254 (stored value 63.5), a
negative float stores 0.0, and a float above 63.5 stores 63.5. -/
theorem C3_clamping :
    (∀ v : ℤ, 254 < v → v ≠ 255 →
      RxMerDataValue.init (.vint v) = RxMerDataValue.init (.vint 254) ∧
      ∃ r, RxMerDataValue.init (.vint v) = .ok r ∧ r.getRxMER = 63.5) ∧
    (∀ q : ℚ, q < 0 →
      ∃ r, RxMerDataValue.init (.vfloat q) = .ok r ∧ r.getRxMER = 0) ∧
    (∀ q : ℚ, 63.5 < q →
      ∃ r, RxMerDataValue.init (.vfloat q) = .ok r ∧ r.getRxMER = 63.5) := by
  refine ⟨fun v hv hne => ?_, fun q hq => ?_, fun q hq => ?_⟩
  · have hne255 : v ≠ RxMerDataValue.NO_MEASUREMENT := by
      simpa [RxMerDataValue.NO_MEASUREMENT] using hne
    have h254 : (254 : ℤ) ≠ RxMerDataValue.NO_MEASUREMENT := by
      simp only [RxMerDataValue.NO_MEASUREMENT]; omega
    have hclamp : min (max v 0) 254 = 254 := by omega
    have hclamp254 : min (max (254 : ℤ) 0) 254 = 254 := by omega
    constructor
    · simp [RxMerDataValue.init, RxMerDataValue._validate_value, hne255, h254,
        max_times_four, hclamp, hclamp254, Except.map]
    · refine ⟨⟨.pfloat (((254 : ℤ) : ℚ) / 4)⟩, ?_, ?_⟩
      · simp [RxMerDataValue.init, RxMerDataValue._validate_value, hne255,
          max_times_four, hclamp, Except.map]
      · simp only [RxMerDataValue.getRxMER, PyNum.toRat]
        norm_num
  · have hmax : max q 0 = 0 := max_eq_right (le_of_lt hq)
    have hmin : min (0 : ℚ) RxMerDataValue.MAX_REPORTED_VALUE = 0 := by
      rw [RxMerDataValue.MAX_REPORTED_VALUE]
      norm_num
    refine ⟨⟨.pfloat 0⟩, ?_, rfl⟩
    simp [RxMerDataValue.init, RxMerDataValue._validate_value, hmax, hmin,
      Except.map]
  · have hq635 : RxMerDataValue.MAX_REPORTED_VALUE < q := by
      rw [RxMerDataValue.MAX_REPORTED_VALUE]; exact hq
    have hmax : max q 0 = q := by
      have h0q : (0 : ℚ) < q := lt_trans (by norm_num) hq
      exact max_eq_left (le_of_lt h0q)
    have hmin : min q RxMerDataValue.MAX_REPORTED_VALUE
        = RxMerDataValue.MAX_REPORTED_VALUE := min_eq_right (le_of_lt hq635)
    refine ⟨⟨.pfloat RxMerDataValue.MAX_REPORTED_VALUE⟩, ?_, ?_⟩
    · simp [RxMerDataValue.init, RxMerDataValue._validate_value, hmax, hmin,
        Except.map]
    · simp only [RxMerDataValue.getRxMER, PyNum.toRat,
        RxMerDataValue.MAX_REPORTED_VALUE]

/-- C4 counterexample: for the non-numeric input "abc" construction fails
with ValueError whose message is the fixed string
"Invalid RxMER value", which does not contain the offending input — the
failure is not surfaced with the input echoed for diagnosis. -/
theorem C4_no_echo_counterexample :
    RxMerDataValue.init (.vstr "abc") = .error "Invalid RxMER value" ∧
    strContains "Invalid RxMER value" "abc" = false := by
  exact ⟨rfl, by decide⟩

/-- C4 amended: constructing from an input that is neither an integer nor
a floating number fails with a ValueError that propagates to the caller,
but its message is the fixed string "Invalid RxMER value"; the offending
input is not echoed. -/
theorem C4_invalid_type_error :
    (∀ s : String,
      RxMerDataValue.init (.vstr s) = .error "Invalid RxMER value" ∧
      strContains "Invalid RxMER value" s = containsSub s.data
        "Invalid RxMER value".data) ∧
    RxMerDataValue.init .vnone = .error "Invalid RxMER value" :=
  ⟨fun _ => ⟨rfl, rfl⟩, rfl⟩

/-- C5: `isMaxValue` is true exactly when the stored value equals 63.5;
construction from the float 63.5 satisfies it, construction from the
float 63.49 does not, and the sentinel does not. -/
theorem C5_isMaxValue_iff :
    (∀ (x : PyValue) (r : RxMerDataValue), RxMerDataValue.init x = .ok r →
      (r.isMaxValue = true ↔ r.getRxMER = 63.5)) ∧
    (∃ r, RxMerDataValue.init (.vfloat 63.5) = .ok r ∧ r.isMaxValue = true) ∧
    (∃ r, RxMerDataValue.init (.vfloat 63.49) = .ok r ∧ r.isMaxValue = false) ∧
    (∃ r, RxMerDataValue.init (.vint 255) = .ok r ∧ r.isMaxValue = false) := by
  refine ⟨fun x r _ => ?_, ⟨⟨.pfloat 63.5⟩, ?_, ?_⟩,
    ⟨⟨.pfloat 63.49⟩, ?_, ?_⟩, ⟨⟨.pint 255⟩, rfl, ?_⟩⟩
  · simp [RxMerDataValue.isMaxValue, RxMerDataValue.getRxMER,
      RxMerDataValue.MAX_REPORTED_VALUE]
  · simp only [RxMerDataValue.init, RxMerDataValue._validate_value,
      RxMerDataValue.MAX_REPORTED_VALUE, Except.map, Except.ok.injEq,
      RxMerDataValue.mk.injEq, PyNum.pfloat.injEq]
    norm_num
  · simp only [RxMerDataValue.isMaxValue, PyNum.toRat,
      RxMerDataValue.MAX_REPORTED_VALUE, decide_eq_true_eq]
  · simp only [RxMerDataValue.init, RxMerDataValue._validate_value,
      RxMerDataValue.MAX_REPORTED_VALUE, Except.map, Except.ok.injEq,
      RxMerDataValue.mk.injEq, PyNum.pfloat.injEq]
    norm_num
  · simp only [RxMerDataValue.isMaxValue, PyNum.toRat,
      RxMerDataValue.MAX_REPORTED_VALUE, decide_eq_false_iff_not]
    norm_num
  · simp only [RxMerDataValue.isMaxValue, PyNum.toRat,
      RxMerDataValue.MAX_REPORTED_VALUE, decide_eq_false_iff_not]
    norm_num

/-- Witness for C5: the equivalence instantiated at the value constructed
from the float 63.5. -/
theorem C5_isMaxValue_iff_witness :
    (RxMerDataValue.mk (.pfloat 63.5)).isMaxValue = true ↔
      (RxMerDataValue.mk (.pfloat 63.5)).getRxMER = 63.5 :=
  C5_isMaxValue_iff.1 (.vfloat 63.5) ⟨.pfloat 63.5⟩ (by
    simp only [RxMerDataValue.init, RxMerDataValue._validate_value,
      RxMerDataValue.MAX_REPORTED_VALUE, Except.map, Except.ok.injEq,
      RxMerDataValue.mk.injEq, PyNum.pfloat.injEq]
    norm_num)

/-- C9 counterexample: constructing from the non-finite float NaN stores
NaN unclamped — `min(max(nan, 0.0), 63.5)` evaluates to NaN because every
comparison with NaN is false — and the stored NaN is neither a decibel
reading in [0.0, 63.5] nor the sentinel 255, so the invariant fails as
claimed. -/
theorem C9_nan_counterexample :
    validate_value_float .nan = .nan ∧
    (validate_value_float .nan).inClaimedRange = false :=
  ⟨rfl, rfl⟩

/-- On finite floats the Python builtin two-argument `max` agrees with
the rational `max`. -/
theorem pymaxF_fin (a b : ℚ) :
    pymaxF (.fin a) (.fin b) = .fin (max a b) := by
  simp only [pymaxF, PyFloat.lt]
  by_cases h : a < b
  · rw [if_pos (by simpa using h), max_eq_right (le_of_lt h)]
  · rw [if_neg (by simpa using h), max_eq_left (le_of_not_lt h)]

/-- On finite floats the Python builtin two-argument `min` agrees with
the rational `min`. -/
theorem pyminF_fin (a b : ℚ) :
    pyminF (.fin a) (.fin b) = .fin (min a b) := by
  simp only [pyminF, PyFloat.lt]
  by_cases h : b < a
  · rw [if_pos (by simpa using h), min_eq_right (le_of_lt h)]
  · rw [if_neg (by simpa using h), min_eq_left (le_of_not_lt h)]

/-- C9 amended: every value successfully constructed from an integer or
a finite float stores either a decibel reading in [0.0, 63.5] or exactly
the sentinel 255; the NaN-aware float branch agrees with the rational
model on every finite float, so the only input escaping the invariant is
the non-finite NaN of the counterexample.  (Immutability is structural
in this embedding: `isMeasurement`, `isMaxValue`, `getRxMER` and
`toJson` are pure functions of the stored value and none returns a
modified `RxMerDataValue`.) -/
theorem C9_stored_invariant :
    (∀ (x : PyValue) (r : RxMerDataValue), RxMerDataValue.init x = .ok r →
      (0 ≤ r.getRxMER ∧ r.getRxMER ≤ 63.5) ∨ r.getRxMER = 255) ∧
    (∀ q : ℚ, validate_value_float (.fin q) =
      .fin (min (max q 0) RxMerDataValue.MAX_REPORTED_VALUE)) := by
  refine ⟨fun x r h => ?_, fun q => ?_⟩
  case refine_2 =>
    simp only [validate_value_float, pymaxF_fin, pyminF_fin]
  cases x with
  | vint n =>
    rw [init_vint] at h
    obtain rfl := Except.ok.inj h
    by_cases hn : n = 255
    · right
      rw [if_pos hn]
      simp only [RxMerDataValue.getRxMER, PyNum.toRat]
      norm_num
    · left
      rw [if_neg hn]
      have hlo : (0 : ℤ) ≤ min (max n 0) 254 := by omega
      have hhi : min (max n 0) 254 ≤ 254 := by omega
      have hloq : (0 : ℚ) ≤ ((min (max n 0) 254 : ℤ) : ℚ) := by
        exact_mod_cast hlo
      have hhiq : ((min (max n 0) 254 : ℤ) : ℚ) ≤ 254 := by exact_mod_cast hhi
      simp only [RxMerDataValue.getRxMER, PyNum.toRat]
      constructor
      · exact div_nonneg hloq (by norm_num)
      · linarith
  | vfloat q =>
    rw [init_vfloat] at h
    obtain rfl := Except.ok.inj h
    left
    simp only [RxMerDataValue.getRxMER, PyNum.toRat]
    exact ⟨le_min (le_max_right q 0) (by norm_num), min_le_right _ _⟩
  | vstr s => exact Except.noConfusion h
  | vnone => exact Except.noConfusion h

/-- Witness for C9 at the integer 10, which decodes to 2.5. -/
theorem C9_stored_invariant_witness :
    (0 ≤ (RxMerDataValue.mk (.pfloat (5 / 2))).getRxMER ∧
      (RxMerDataValue.mk (.pfloat (5 / 2))).getRxMER ≤ 63.5) ∨
    (RxMerDataValue.mk (.pfloat (5 / 2))).getRxMER = 255 :=
  C9_stored_invariant.1 (.vint 10) ⟨.pfloat (5 / 2)⟩ (by
    rw [init_vint]
    norm_num)

/-- Decoding a list of byte values never fails (the `int` path of
`_validate_value` raises nothing) and yields one value per byte, in
order. -/
theorem decodeBytes_ok (bs : List Nat) :
    ∃ rs : List RxMerDataValue, decodeBytes bs = .ok rs ∧
      rs.length = bs.length ∧
      ∀ i, i < bs.length → ∃ b r, bs.get? i = some b ∧ rs.get? i = some r ∧
        RxMerDataValue.init (.vint (b : ℤ)) = .ok r := by
  induction bs with
  | nil => exact ⟨[], rfl, rfl, fun i hi => absurd hi (by simp)⟩
  | cons b rest ih =>
    obtain ⟨rs, hok, hlen, hel⟩ := ih
    refine ⟨⟨if (b : ℤ) = 255 then .pint 255
             else .pfloat (((min (max (b : ℤ) 0) 254 : ℤ) : ℚ) / 4)⟩ :: rs,
      ?_, by simpa using hlen, ?_⟩
    · simp [decodeBytes, init_vint, hok, bind, Except.bind]
    · intro i hi
      cases i with
      | zero => exact ⟨b, _, rfl, rfl, init_vint (b : ℤ)⟩
      | succ j =>
        have hj : j < rest.length := by simpa using hi
        obtain ⟨b2, r2, h1, h2, h3⟩ := hel j hj
        exact ⟨b2, r2, h1, h2, h3⟩

/-- The renderings of a list of JSON values are the mapped renderings. -/
theorem dumpsList_map (vs : List RxMerDataValue) :
    Json.dumpsList (vs.map (fun v => .str v.toJson)) =
      vs.map (fun v => jsonQuote v.toJson) := by
  induction vs with
  | nil => rfl
  | cons v rest ih => simp [Json.dumpsList, Json.dumps, ih]

/-- C6: the sequence JSON is an object with the single field values whose
entries are, in order, the quoted encoded string form of each per-element
JSON (each element JSON having exactly the fields value, isMaxValue and
isMeasurement); the empty sequence renders as an object holding an empty
array, and its size is 0. -/
theorem C6_sequence_json :
    (RxMerData.mk []).size = 0 ∧
    (RxMerData.mk []).toJson = "\x7b\"values\": []\x7d" ∧
    (∀ vs : List RxMerDataValue, (RxMerData.mk vs).toJson =
      "\x7b\"values\": [" ++
        String.intercalate ", " (vs.map (fun v => jsonQuote v.toJson)) ++
        "]\x7d") ∧
    (∀ r : RxMerDataValue, r.toJson =
      "\x7b\"value\": " ++ dumpNum r.value ++
        ", \"isMaxValue\": " ++ (if r.isMaxValue then "true" else "false") ++
        ", \"isMeasurement\": " ++
        (if r.isMeasurement then "true" else "false") ++ "\x7d") := by
  refine ⟨rfl, rfl, fun vs => ?_, fun r => ?_⟩
  · simp only [RxMerData.toJson, Json.dumps, Json.dumpsFields,
      Json.dumpsList, dumpsList_map, String.intercalate,
      String.intercalate.go]
    apply String.ext
    simp only [String.data_append, List.append_assoc]
    rfl
  · simp only [RxMerDataValue.toJson, Json.dumps, Json.dumpsFields,
      Json.dumpsList, String.intercalate, String.intercalate.go]
    apply String.ext
    simp only [String.data_append, List.append_assoc]
    rfl

/-- C7: for every present raw payload the parse step produces a sequence
with one element per payload byte, the i-th element being the raw-byte
decoding of the i-th byte; on the payload [0, 4, 254, 255] the result has
size 4, decoded values [0.0, 1.0, 63.5, 255] and measurement flags
[true, true, true, false]. -/
theorem C7_process_order :
    (∀ bs : List Nat, ∃ d : RxMerData,
      (RX_MER.init (some bs))._parse_rxmer_data = .ok d ∧
      d.size = bs.length ∧
      ∀ i, i < bs.length → ∃ b r, bs.get? i = some b ∧
        d.values.get? i = some r ∧
        RxMerDataValue.init (.vint (b : ℤ)) = .ok r) ∧
    (∃ d : RxMerData,
      (RX_MER.init (some [0, 4, 254, 255]))._parse_rxmer_data = .ok d ∧
      d.size = 4 ∧
      d.values.map RxMerDataValue.getRxMER = [0, 1, 63.5, 255] ∧
      d.values.map RxMerDataValue.isMeasurement =
        [true, true, true, false]) := by
  constructor
  · intro bs
    obtain ⟨rs, hok, hlen, hel⟩ := decodeBytes_ok bs
    exact ⟨⟨rs⟩, by simp [RX_MER.init, RX_MER._parse_rxmer_data, hok,
      Except.map], by simpa [RxMerData.size] using hlen, hel⟩
  · refine ⟨⟨[⟨.pfloat 0⟩, ⟨.pfloat 1⟩, ⟨.pfloat 63.5⟩, ⟨.pint 255⟩]⟩,
      ?_, rfl, ?_, ?_⟩
    · simp only [RX_MER.init, RX_MER._parse_rxmer_data, decodeBytes,
        init_vint, Except.map, Except.bind, bind]
      norm_num
    · simp only [List.map, RxMerDataValue.getRxMER, PyNum.toRat]
      norm_num
    · simp only [List.map, RxMerDataValue.isMeasurement, PyNum.toRat,
        RxMerDataValue.NO_MEASUREMENT]
      norm_num

/-- Witness for C7: the third element of the parsed [0, 4, 254, 255]
payload is the decoding of the byte 254. -/
theorem C7_process_order_witness :
    ∃ d : RxMerData,
      (RX_MER.init (some [0, 4, 254, 255]))._parse_rxmer_data = .ok d ∧
      ∃ b r, ([0, 4, 254, 255] : List ℕ).get? 2 = some b ∧
        d.values.get? 2 = some r ∧
        RxMerDataValue.init (.vint (b : ℤ)) = .ok r := by
  obtain ⟨d, hok, hsz, hel⟩ := C7_process_order.1 [0, 4, 254, 255]
  exact ⟨d, hok, hel 2 (by decide)⟩

/-- C8: an absent raw payload is not an error: `run()` succeeds and
stores an empty sequence, whose size is 0. -/
theorem C8_missing_payload :
    (RX_MER.init none).run = .ok ⟨none, some ⟨[]⟩⟩ ∧
    (RxMerData.mk []).size = 0 :=
  ⟨rfl, rfl⟩

/-- C10: a freshly constructed processor has no sequence and its
`toJson()` fails with an AttributeError; `run()` always succeeds, and
after any successful `run()` the field holds a sequence and `toJson()`
returns its JSON. -/
theorem C10_lifecycle :
    (∀ h : Option (List Nat),
      (RX_MER.init h).rxmer_data = none ∧
      (RX_MER.init h).toJson =
        .error "AttributeError: NoneType object has no attribute toJson") ∧
    (∀ m : RX_MER, ∃ m2, m.run = .ok m2) ∧
    (∀ m m2 : RX_MER, m.run = .ok m2 →
      ∃ d, m2.rxmer_data = some d ∧ m2.toJson = .ok d.toJson) := by
  refine ⟨fun h => ⟨rfl, rfl⟩, fun m => ?_, fun m m2 hrun => ?_⟩
  · cases hh : m.pnm_header with
    | none =>
      exact ⟨{ m with rxmer_data := some ⟨[]⟩ }, by
        simp [RX_MER.run, RX_MER.process_data, RX_MER._parse_rxmer_data, hh,
          Except.map]⟩
    | some bs =>
      obtain ⟨rs, hok, -, -⟩ := decodeBytes_ok bs
      exact ⟨{ m with rxmer_data := some ⟨rs⟩ }, by
        simp [RX_MER.run, RX_MER.process_data, RX_MER._parse_rxmer_data, hh,
          hok, Except.map]⟩
  · cases hp : m._parse_rxmer_data with
    | error e =>
      rw [RX_MER.run, RX_MER.process_data, hp] at hrun
      exact Except.noConfusion hrun
    | ok d =>
      rw [RX_MER.run, RX_MER.process_data, hp] at hrun
      obtain rfl := Except.ok.inj hrun
      exact ⟨d, rfl, rfl⟩

/-- Witness for C10: after running on the one-byte payload [4] the held
sequence is present and `toJson()` succeeds. -/
theorem C10_lifecycle_witness :
    ∃ d, (RX_MER.mk (some [4])
        (some (RxMerData.mk [⟨.pfloat 1⟩]))).rxmer_data = some d ∧
      (RX_MER.mk (some [4]) (some (RxMerData.mk [⟨.pfloat 1⟩]))).toJson =
        .ok d.toJson :=
  C10_lifecycle.2.2 (RX_MER.init (some [4])) _ (by
    simp only [RX_MER.init, RX_MER.run, RX_MER.process_data,
      RX_MER._parse_rxmer_data, decodeBytes, init_vint, Except.map,
      Except.bind, bind]
    norm_num)

/-- Witness for C3 at v = 256, f = -1.0, f = 100.0. -/
theorem C3_clamping_witness :
    (RxMerDataValue.init (.vint 256) = RxMerDataValue.init (.vint 254)) ∧
    (∃ r, RxMerDataValue.init (.vfloat (-1)) = .ok r ∧ r.getRxMER = 0) ∧
    (∃ r, RxMerDataValue.init (.vfloat 100) = .ok r ∧ r.getRxMER = 63.5) :=
  ⟨(C3_clamping.1 256 (by decide) (by decide)).1,
   C3_clamping.2.1 (-1) (by norm_num),
   C3_clamping.2.2 100 (by norm_num)⟩
